import Mathlib

/-!
Verification of the AB Cover rating engine pipeline: a shallow embedding of
the data-cleaning agents (`data_cleaning_agent.py`, `data_cleaning_agent_llm.py`)
and the rating-engine agents (`rating_engine_agent.py`, `rating_engine_agent_llm.py`),
with theorems settling the specification claims about them.

Modelling conventions:
- pandas `Timestamp` values are modelled at day granularity by `PDate`
  (year/month/day over `Int`, compared chronologically); the pandas
  representable range at day granularity is `[1677-09-22, 2262-04-11]`
  (a `Timestamp` built from a year/month/day outside it raises, which the
  source catches as a `ValueError`).
- Python floats are modelled by `ℚ`; Python ints by `ℤ`/`ℕ`.
- A cell that is missing / NaN is `Option.none`; `pd.to_numeric(..., errors
  = coerce)` applied to a non-numeric cell also yields NaN, so numeric
  columns are `Option ℚ` with `none` covering both.
- Column presence (`'X' in df.columns`, `'X' in row`) is modelled by
  boolean flags on the table.
-/

namespace ABCover

/-- A calendar date, as carried by a pandas `Timestamp` at day granularity. -/
structure PDate where
  year : Int
  month : Int
  day : Int
deriving DecidableEq, Repr

/-- Chronological order on dates (what `<=` on pandas `Timestamp`s computes,
for timestamps at day granularity). -/
def PDate.le (a b : PDate) : Bool :=
  decide (a.year < b.year ∨ (a.year = b.year ∧
    (a.month < b.month ∨ (a.month = b.month ∧ a.day ≤ b.day))))

/-- Earliest day-granularity date a pandas `Timestamp` can hold
(`Timestamp.min` is 1677-09-21 00:12:43, so the first constructible
midnight is 1677-09-22). -/
def pandasMinDate : PDate := ⟨1677, 9, 22⟩

/-- Latest day-granularity date a pandas `Timestamp` can hold
(`Timestamp.max` is 2262-04-11 23:47:16). -/
def pandasMaxDate : PDate := ⟨2262, 4, 11⟩

/-- Whether `pd.Timestamp(year, month, day)` succeeds rather than raising
an out-of-bounds error (a `ValueError` subclass, caught by the source). -/
def timestampOk (d : PDate) : Bool :=
  PDate.le pandasMinDate d && PDate.le d pandasMaxDate

/-- ASCII whitespace stripped by Python `str.strip()`. -/
def isPyWs (c : Char) : Bool :=
  c = ' ' || c = '\t' || c = '\n' || c = '\r' || c = '\x0b' || c = '\x0c'

/-- Python `str.strip()` on a character list: drop whitespace at both ends. -/
def stripChars (cs : List Char) : List Char :=
  ((cs.dropWhile isPyWs).reverse.dropWhile isPyWs).reverse

/-- Python `str(x).strip()` on a string. -/
def pyStrip (s : String) : String :=
  String.mk (stripChars s.toList)

/-- Python `str.split(sep)` for a single-character separator: split into the
(possibly empty) chunks between occurrences of `sep`. -/
def splitOnChar (sep : Char) : List Char → List (List Char)
  | [] => [[]]
  | a :: r =>
    match splitOnChar sep r with
    | [] => if a = sep then [[], []] else [[a]]
    | g :: gs => if a = sep then [] :: g :: gs else (a :: g) :: gs

/-- Digit run accepted by Python `int` after the first digit: digits with
single underscores allowed between digits. -/
def pyDigitsRest : List Char → Bool
  | [] => true
  | '_' :: [] => false
  | '_' :: c :: r => c.isDigit && pyDigitsRest (c :: r)
  | c :: r => c.isDigit && pyDigitsRest r

/-- Digit run accepted by Python `int`: at least one digit, underscores only
between digits. -/
def pyDigitsOk : List Char → Bool
  | [] => false
  | c :: r => c.isDigit && pyDigitsRest r

/-- Numeric value of a digit list, underscores skipped. -/
def digitsToNat (cs : List Char) : Nat :=
  cs.foldl (fun n c => if c = '_' then n else n * 10 + (c.toNat - 48)) 0

/-- Python `int(s)` on a string: strips surrounding whitespace, allows an
optional sign, then a digit run (underscores permitted between digits);
anything else raises `ValueError` (modelled as `none`). -/
def pyIntChars (cs : List Char) : Option Int :=
  let signed : Int × List Char :=
    match stripChars cs with
    | '+' :: r => (1, r)
    | '-' :: r => (-1, r)
    | r => (1, r)
  if pyDigitsOk signed.2 then some (signed.1 * (digitsToNat signed.2 : Int)) else none

/-- Python `int(s)` on a string. -/
def pyInt (s : String) : Option Int :=
  pyIntChars s.toList

/-- `get_school_year_range` from `DataCleaningAgentLLM.apply_rule3`: split the
school-year string on a hyphen; with exactly two `int`-parseable parts, build
the window `[July 1 of start year, June 30 of end year]`; any parse failure or
out-of-bounds timestamp yields `(None, None)` (modelled `none`). -/
def get_school_year_range (s : String) : Option (PDate × PDate) :=
  match splitOnChar '-' s.toList with
  | [p1, p2] =>
    match pyIntChars p1, pyIntChars p2 with
    | some y1, some y2 =>
      let startDate : PDate := ⟨y1, 7, 1⟩
      let endDate : PDate := ⟨y2, 6, 30⟩
      if timestampOk startDate && timestampOk endDate then some (startDate, endDate)
      else none
    | _, _ => none
  | _ => none

example : get_school_year_range "2021-2022" = some (⟨2021, 7, 1⟩, ⟨2022, 6, 30⟩) := by decide
example : get_school_year_range "20-21" = none := by decide
example : get_school_year_range "2020/2021" = none := by decide
example : get_school_year_range "2021" = none := by decide
example : get_school_year_range "02021-2022" = some (⟨2021, 7, 1⟩, ⟨2022, 6, 30⟩) := by decide

/-- A `Date` cell after the upload stage: missing (NaN), an unparseable
value (one `pd.to_datetime` maps to NaT), or a proper date. -/
inductive DateVal where
  | missing
  | invalid
  | valid (d : PDate)
deriving DecidableEq, Repr

/-- One row of the absence table; each field is a cell of the corresponding
column (`none` = NaN). `duration` holds the numeric value of the `Duration`
cell when it has one (`pd.to_numeric(..., errors=coerce)` turns anything else
into NaN, folded into `none`). -/
structure CRow where
  date : DateVal := DateVal.missing
  schoolYear : Option String := none
  employeeId : Option String := none
  absenceType : Option String := none
  duration : Option ℚ := none
  filled : Option String := none
  needsSub : Option String := none
  employeeType : Option String := none
  absenceDays : Option ℚ := none
deriving DecidableEq, Repr

/-- An absence table: which columns are present, plus the rows. A flag set to
`false` means the whole column is absent from the DataFrame. -/
structure CTable where
  hasDate : Bool := true
  hasSchoolYear : Bool := true
  hasEmployeeId : Bool := true
  hasAbsenceType : Bool := true
  hasDuration : Bool := true
  hasFilled : Bool := true
  hasNeedsSub : Bool := true
  hasEmployeeType : Bool := true
  hasAbsenceDays : Bool := false
deriving DecidableEq, Repr

/-- A table is the column layout plus the list of rows. -/
structure Table where
  cols : CTable
  rows : List CRow
deriving DecidableEq, Repr

/-- The inner `calculate_days(row)` function, identical in
`DataCleaningAgent.calculate_absence_days` and
`DataCleaningAgentLLM.calculate_absence_days`: fractional absence days from
the `Absence Type` cell and, for `Custom Duration`, the `Duration` cell.
`hasAbsenceType`/`hasDuration` say whether those columns exist in the frame
the row was taken from (`row.get` yields `None` for an absent column and the
`Custom Duration` branch first tests `'Duration' in row`). -/
def calculate_days (hasAbsenceType hasDuration : Bool) (r : CRow) : ℚ :=
  match (if hasAbsenceType then r.absenceType else none) with
  | none => 0
  | some s =>
    let absType := pyStrip s
    if absType = "Full Day" then 1
    else if absType = "AM Half Day" ∨ absType = "PM Half Day" then 1 / 2
    else if absType = "Custom Duration" then
      if hasDuration then
        match r.duration with
        | some hours => hours / (15 / 2)
        | none => 0
      else 0
    else 0

example : calculate_days true true { absenceType := some "Full Day" } = 1 := by
  norm_num +decide [calculate_days, pyStrip, stripChars, isPyWs]
example : calculate_days true true { absenceType := some " PM Half Day " } = 1 / 2 := by
  norm_num +decide [calculate_days, pyStrip, stripChars, isPyWs]
example :
    calculate_days true true { absenceType := some "Custom Duration", duration := some 3 } =
      2 / 5 := by
  norm_num +decide [calculate_days, pyStrip, stripChars, isPyWs]
example :
    calculate_days true true { absenceType := some "Custom Duration", duration := some (-3) } =
      -(2 / 5) := by
  norm_num +decide [calculate_days, pyStrip, stripChars, isPyWs]
example : calculate_days true true { absenceType := some "Sick" } = 0 := by
  norm_num +decide [calculate_days, pyStrip, stripChars, isPyWs]
example : calculate_days true true { absenceDays := some 7 } = 0 := by
  norm_num [calculate_days]

/-- The employee types the deterministic agent keeps (`self.teacher_types`). -/
def teacher_types : List String := ["Teacher", "Teacher Music", "Teacher SpecEd"]

/-- Row predicate of Rule 1: keep records that are NOT
(`Filled == Unfilled` AND `Needs Substitute == NO`). A NaN cell compares
unequal to any string, as in pandas. -/
def rule1Keep (r : CRow) : Bool :=
  !(r.filled == some "Unfilled" && r.needsSub == some "NO")

/-- Row predicate of Rule 2 for an allow-list: `Employee Type` is in the
list (`Series.isin`; a NaN cell is in no list). -/
def rule2Keep (types : List String) (r : CRow) : Bool :=
  match r.employeeType with
  | none => false
  | some t => types.contains t

namespace DataCleaningAgent

/-- `DataCleaningAgent.apply_rule1`: drop `Unfilled` + `NO` rows when both
columns exist, otherwise return a copy unchanged. -/
def apply_rule1 (t : Table) : Table :=
  if t.cols.hasFilled && t.cols.hasNeedsSub then
    { t with rows := t.rows.filter rule1Keep }
  else t

/-- `DataCleaningAgent.apply_rule2`: keep only the three teacher types when
the `Employee Type` column exists. -/
def apply_rule2 (t : Table) : Table :=
  if t.cols.hasEmployeeType then
    { t with rows := t.rows.filter (rule2Keep teacher_types) }
  else t

/-- `DataCleaningAgent.calculate_absence_days`: when an `Absence_Days` column
is already present the table is returned as is (`return df  # Already
calculated`); otherwise the per-row `calculate_days` value is written into a
new `Absence_Days` column. -/
def calculate_absence_days (t : Table) : Table :=
  if t.cols.hasAbsenceDays then t
  else
    { cols := { t.cols with hasAbsenceDays := true },
      rows := t.rows.map fun r =>
        { r with absenceDays := some (calculate_days t.cols.hasAbsenceType t.cols.hasDuration r) } }

/-- The cleaning statistics dictionary built by `DataCleaningAgent.process`. -/
structure Stats where
  original_rows : ℕ
  after_rule1 : ℕ
  after_rule2 : ℕ
  final_rows : ℕ
  rows_removed : ℤ
deriving DecidableEq, Repr

/-- `DataCleaningAgent.process`: Rule 1, Rule 2, absence-day computation, and
the row-count statistics. -/
def process (t : Table) : Table × Stats :=
  let original := t.rows.length
  let t1 := apply_rule1 t
  let t2 := apply_rule2 t1
  let t3 := calculate_absence_days t2
  (t3,
    { original_rows := original
      after_rule1 := t1.rows.length
      after_rule2 := t2.rows.length
      final_rows := t3.rows.length
      rows_removed := (original : ℤ) - (t3.rows.length : ℤ) })

end DataCleaningAgent

namespace DataCleaningAgentLLM

/-- `DataCleaningAgentLLM.apply_rule1`: as the deterministic rule, behind the
`should_apply` toggle suggested by the reasoning step. -/
def apply_rule1 (t : Table) (shouldApply : Bool) : Table :=
  if !shouldApply then t
  else if t.cols.hasFilled && t.cols.hasNeedsSub then
    { t with rows := t.rows.filter rule1Keep }
  else t

/-- `DataCleaningAgentLLM.apply_rule2`: keep the caller-supplied employee
types, when the column exists and the list is non-empty (Python truthiness of
`employee_types_to_keep`). -/
def apply_rule2 (t : Table) (employeeTypesToKeep : List String) : Table :=
  if t.cols.hasEmployeeType && !employeeTypesToKeep.isEmpty then
    { t with rows := t.rows.filter (rule2Keep employeeTypesToKeep) }
  else t

/-- Row predicate of Rule 3 (school-year / date consistency): rows with a
missing school year or date are skipped (kept); an unparseable school year is
skipped (kept); a date value that cannot be converted is marked invalid
(dropped); otherwise keep exactly when the date lies in the school-year
window. -/
def rule3Keep (r : CRow) : Bool :=
  match r.schoolYear with
  | none => true
  | some sy =>
    match r.date with
    | DateVal.missing => true
    | DateVal.invalid =>
      match get_school_year_range sy with
      | none => true
      | some _ => false
    | DateVal.valid d =>
      match get_school_year_range sy with
      | none => true
      | some (startDate, endDate) => PDate.le startDate d && PDate.le d endDate

/-- `DataCleaningAgentLLM.apply_rule3`: filter by `rule3Keep` when the rule is
on and both the `School Year` and `Date` columns exist. -/
def apply_rule3 (t : Table) (shouldApply : Bool) : Table :=
  if !shouldApply then t
  else if !(t.cols.hasSchoolYear && t.cols.hasDate) then t
  else { t with rows := t.rows.filter rule3Keep }

/-- `DataCleaningAgentLLM.calculate_absence_days`: when the `Absence Type`
column is absent the table is returned unchanged; otherwise `Absence_Days` is
always recomputed per row, overwriting any pre-existing column (the source
comments that a pre-existing `Absence_Days` may be wrong). -/
def calculate_absence_days (t : Table) : Table :=
  if !t.cols.hasAbsenceType then t
  else
    { cols := { t.cols with hasAbsenceDays := true },
      rows := t.rows.map fun r =>
        { r with absenceDays := some (calculate_days t.cols.hasAbsenceType t.cols.hasDuration r) } }

/-- Entries of the report's `format_issues` list (the source builds formatted
message strings; here each message is its tag and payload). -/
inductive FormatIssue where
  | missingColumns (cols : List String)
  | removedEmptyRows (n : ℕ)
  | invalidSchoolYearFormat (n : ℕ)
  | missingEmployeeIds (n : ℕ)
deriving DecidableEq, Repr

/-- Entries of the report's `data_type_issues` list. -/
inductive DataTypeIssue where
  | invalidDates (n : ℕ)
deriving DecidableEq, Repr

/-- Entries of the report's `invalid_values` list. -/
inductive InvalidValue where
  | negativeDurations (n : ℕ)
deriving DecidableEq, Repr

/-- The `validation_report` dictionary of
`DataCleaningAgentLLM.validate_data_format`. -/
structure ValidationReport where
  format_issues : List FormatIssue
  data_type_issues : List DataTypeIssue
  invalid_values : List InvalidValue
  columns_checked : List String
  rows_removed : ℤ
  final_rows : ℕ
deriving DecidableEq, Repr

/-- The required columns checked by `validate_data_format`. -/
def required_columns : List String :=
  ["Date", "School Year", "Employee Identifier", "Absence Type"]

/-- Column-presence lookup for the required-column check. -/
def hasRequiredCol (c : CTable) : String → Bool
  | "Date" => c.hasDate
  | "School Year" => c.hasSchoolYear
  | "Employee Identifier" => c.hasEmployeeId
  | "Absence Type" => c.hasAbsenceType
  | _ => false

/-- A row every present column of which holds NaN (`dropna(how=all)`). -/
def rowAllNa (c : CTable) (r : CRow) : Bool :=
  (!c.hasDate || r.date == DateVal.missing) &&
  (!c.hasSchoolYear || r.schoolYear == none) &&
  (!c.hasEmployeeId || r.employeeId == none) &&
  (!c.hasAbsenceType || r.absenceType == none) &&
  (!c.hasDuration || r.duration == none) &&
  (!c.hasFilled || r.filled == none) &&
  (!c.hasNeedsSub || r.needsSub == none) &&
  (!c.hasEmployeeType || r.employeeType == none) &&
  (!c.hasAbsenceDays || r.absenceDays == none)

/-- The `School Year` shape test of `validate_data_format`: exactly nine
characters with a hyphen at index 4. -/
def syFormatOk (s : String) : Bool :=
  s.length == 9 && s.toList[4]? == some '-'

/-- Whether a `Date` cell survives `pd.to_datetime(..., errors=coerce)`. -/
def dateIsValid (r : CRow) : Bool :=
  match r.date with
  | DateVal.valid _ => true
  | _ => false

/-- `DataCleaningAgentLLM.validate_data_format`: check required columns
(recording, not raising), drop all-NaN rows, coerce `Date` and drop rows
whose date does not parse, count negative durations, malformed school years
and missing employee identifiers (all kept), and return the surviving table
with the report. -/
def validate_data_format (t : Table) : Table × ValidationReport :=
  let originalRows := t.rows.length
  let missingCols := required_columns.filter fun c => !(hasRequiredCol t.cols c)
  let issuesReq : List FormatIssue :=
    if !missingCols.isEmpty then [FormatIssue.missingColumns missingCols] else []
  let rows1 := if t.rows.isEmpty then t.rows else t.rows.filter fun r => !rowAllNa t.cols r
  let issuesEmpty : List FormatIssue :=
    if originalRows ≠ rows1.length then
      [FormatIssue.removedEmptyRows (originalRows - rows1.length)] else []
  let invalidDates :=
    if t.cols.hasDate then (rows1.filter fun r => !dateIsValid r).length else 0
  let rows2 :=
    if t.cols.hasDate && invalidDates > 0 then rows1.filter dateIsValid else rows1
  let dtIssues : List DataTypeIssue :=
    if t.cols.hasDate && invalidDates > 0 then [DataTypeIssue.invalidDates invalidDates] else []
  let negDurations :=
    if t.cols.hasDuration then
      (rows2.filter fun r => match r.duration with | some q => decide (q < 0) | none => false).length
    else 0
  let invValues : List InvalidValue :=
    if t.cols.hasDuration && negDurations > 0 then [InvalidValue.negativeDurations negDurations]
    else []
  let invalidSY :=
    if t.cols.hasSchoolYear then
      (rows2.filter fun r => match r.schoolYear with
        | some s => !syFormatOk s
        | none => false).length
    else 0
  let issuesSY : List FormatIssue :=
    if t.cols.hasSchoolYear && invalidSY > 0 then
      [FormatIssue.invalidSchoolYearFormat invalidSY] else []
  let emptyIds :=
    if t.cols.hasEmployeeId then (rows2.filter fun r => r.employeeId == none).length else 0
  let issuesIds : List FormatIssue :=
    if t.cols.hasEmployeeId && emptyIds > 0 then [FormatIssue.missingEmployeeIds emptyIds] else []
  let checked :=
    (if t.cols.hasDate then ["Date"] else []) ++
    (if t.cols.hasDuration then ["Duration"] else []) ++
    (if t.cols.hasSchoolYear then ["School Year"] else []) ++
    (if t.cols.hasEmployeeId then ["Employee Identifier"] else [])
  ({ t with rows := rows2 },
    { format_issues := issuesReq ++ issuesEmpty ++ issuesSY ++ issuesIds
      data_type_issues := dtIssues
      invalid_values := invValues
      columns_checked := checked
      rows_removed := (originalRows : ℤ) - (rows2.length : ℤ)
      final_rows := rows2.length })

/-- The statistics dictionary of `DataCleaningAgentLLM.process` (the LLM
reasoning strings are external and not modelled). -/
structure Stats where
  original_rows : ℕ
  after_validation : ℕ
  after_rule1 : ℕ
  after_rule2 : ℕ
  after_rule3 : ℕ
  final_rows : ℕ
  rows_removed : ℤ
  rule2_applied : Bool
  validation_report : ValidationReport
deriving DecidableEq, Repr

/-- Python truthiness of the `user_selected_employee_types` value. -/
def userTypesTruthy : Option (List String) → Bool
  | some l => !l.isEmpty
  | none => false

/-- `DataCleaningAgentLLM.process`: format validation first, then Rule 1
(behind the suggested toggle), Rule 2 (skipped when the user already filtered
employee types), Rule 3 (forced on whenever both the `School Year` and `Date`
columns exist), then the absence-day computation. The rule parameters the
reasoning step supplies are arguments. -/
def process (t : Table) (removeUnfilled : Bool) (userAlreadyFiltered : Bool)
    (userSelectedTypes : Option (List String)) (llmEmployeeTypes : List String)
    (validateDatesSuggested : Bool) : Table × Stats :=
  let original := t.rows.length
  let v := validate_data_format t
  let t0 := v.1
  let t1 := apply_rule1 t0 removeUnfilled
  let skipRule2 := userAlreadyFiltered && userTypesTruthy userSelectedTypes
  let t2 := if skipRule2 then t1 else apply_rule2 t1 llmEmployeeTypes
  let shouldValidateDates :=
    if t2.cols.hasSchoolYear && t2.cols.hasDate then true else validateDatesSuggested
  let t3 := apply_rule3 t2 shouldValidateDates
  let t4 := calculate_absence_days t3
  (t4,
    { original_rows := original
      after_validation := t0.rows.length
      after_rule1 := t1.rows.length
      after_rule2 := t2.rows.length
      after_rule3 := t3.rows.length
      final_rows := t4.rows.length
      rows_removed := (original : ℤ) - (t4.rows.length : ℤ)
      rule2_applied := !skipRule2
      validation_report := v.2 })

end DataCleaningAgentLLM

/-! ## Rating engines

`teacher_days` is the table produced by grouping the cleaned data by
`(School Year, Employee Identifier)` and summing `Absence_Days`; both engines
start by regrouping it by employee alone
(`teacher_days.groupby(Employee Identifier)[Total_Days].sum()`), modelled by
`groupByKeySum` on `(employee, days)` pairs. -/

/-- Add one `(key, value)` pair to an association list, summing values of
equal keys (the effect of a pandas `groupby(...).sum()` on that pair). -/
def addEntry : List (String × ℚ) → String × ℚ → List (String × ℚ)
  | [], e => [e]
  | (k, v) :: rest, e => if e.1 = k then (k, v + e.2) :: rest else (k, v) :: addEntry rest e

/-- `groupby(key).sum()`: per-key sums, one entry per distinct key. -/
def groupByKeySum (l : List (String × ℚ)) : List (String × ℚ) :=
  l.foldl addEntry []

/-- The per-employee total-day series the engines start from. -/
def totalsOf (teacherDays : List (String × ℚ)) : List ℚ :=
  (groupByKeySum teacherDays).map Prod.snd

/-- Employees with `Total_Days > deductible` and `<= cc_maximum`
(`staff_in_cc_range`). -/
def ccRangeFilter (deductible ccMaximum : ℚ) (totals : List ℚ) : List ℚ :=
  totals.filter fun d => decide (deductible < d) && decide (d ≤ ccMaximum)

/-- Employees with `Total_Days > cc_maximum` (`high_claimant_staff`). -/
def highClaimantFilter (ccMaximum : ℚ) (totals : List ℚ) : List ℚ :=
  totals.filter fun d => decide (ccMaximum < d)

namespace RatingEngineAgent

/-- The dictionary returned by `RatingEngineAgent.calculate_coverage_metrics`. -/
structure Metrics where
  num_staff_cc_range : ℕ
  total_cc_days : ℚ
  replacement_cost_cc : ℚ
  num_high_claimant : ℕ
  excess_days : ℚ
  high_claimant_cost : ℚ
  deductible : ℚ
  cc_days : ℚ
  cc_maximum : ℚ
  replacement_cost : ℚ
deriving DecidableEq, Repr

/-- `RatingEngineAgent.calculate_coverage_metrics`: the deterministic engine.
`total_cc_days = staff_in_cc_range.sum()` — the FULL day totals of the
coverage-range employees; excess days are `Total_Days - cc_maximum` summed
over high claimants. -/
def calculate_coverage_metrics (teacherDays : List (String × ℚ))
    (deductible cc_days replacement_cost : ℚ) : Metrics :=
  let totals := totalsOf teacherDays
  let ccMaximum := deductible + cc_days
  let staffInCCRange := ccRangeFilter deductible ccMaximum totals
  let totalCCDays := staffInCCRange.sum
  let highClaimants := highClaimantFilter ccMaximum totals
  let excessDays := (highClaimants.map fun d => d - ccMaximum).sum
  { num_staff_cc_range := staffInCCRange.length
    total_cc_days := totalCCDays
    replacement_cost_cc := replacement_cost * totalCCDays
    num_high_claimant := highClaimants.length
    excess_days := excessDays
    high_claimant_cost := replacement_cost * excessDays
    deductible := deductible
    cc_days := cc_days
    cc_maximum := ccMaximum
    replacement_cost := replacement_cost }

/-- The dictionary returned by `RatingEngineAgent.calculate_premium`. -/
structure Premium where
  replacement_cost_cc : ℚ
  ark_commission : ℚ
  abcover_commission : ℚ
  total_premium : ℚ
deriving DecidableEq, Repr

/-- `RatingEngineAgent.calculate_premium`: commissions on the coverage cost
and their sum with it. -/
def calculate_premium (replacement_cost_cc ark_commission_rate abcover_commission_rate : ℚ) :
    Premium :=
  let arkCommission := replacement_cost_cc * ark_commission_rate
  let abcoverCommission := replacement_cost_cc * abcover_commission_rate
  { replacement_cost_cc := replacement_cost_cc
    ark_commission := arkCommission
    abcover_commission := abcoverCommission
    total_premium := replacement_cost_cc + arkCommission + abcoverCommission }

end RatingEngineAgent

namespace RatingEngineAgentLLM

/-- The calculation fields of the results dictionary of
`RatingEngineAgentLLM.calculate_with_reasoning` (per-school-year reporting
rollups are separate, see `perSchoolYearMetrics`). -/
structure Results where
  num_staff_cc_range : ℕ
  total_cc_days : ℚ
  replacement_cost_cc : ℚ
  num_high_claimant : ℕ
  excess_days : ℚ
  high_claimant_cost : ℚ
  ark_commission : ℚ
  abcover_commission : ℚ
  total_premium : ℚ
  deductible : ℚ
  cc_days : ℚ
  cc_maximum : ℚ
  replacement_cost : ℚ
  total_teachers : ℕ
  below_deductible_count : ℕ
deriving DecidableEq, Repr

/-- `RatingEngineAgentLLM.calculate_with_reasoning`, calculation core. The
calculation approach is forced to `range_only` / `excess_only` before use, so
`total_cc_days` adds `min(days - deductible, cc_maximum - deductible)` per
coverage-range employee and `excess_days` adds `days - cc_maximum` per high
claimant. -/
def calculate_with_reasoning (teacherDays : List (String × ℚ))
    (deductible cc_days replacement_cost ark_commission_rate abcover_commission_rate : ℚ) :
    Results :=
  let ccMaximum := deductible + cc_days
  let totals := totalsOf teacherDays
  let staffInCCRange := ccRangeFilter deductible ccMaximum totals
  let totalCCDays := staffInCCRange.foldl
    (fun acc d => if deductible < d then acc + min (d - deductible) (ccMaximum - deductible)
      else acc) 0
  let replacementCostCC := replacement_cost * totalCCDays
  let highClaimants := highClaimantFilter ccMaximum totals
  let excessDays := (highClaimants.map fun d => d - ccMaximum).sum
  let arkCommission := replacementCostCC * ark_commission_rate
  let abcoverCommission := replacementCostCC * abcover_commission_rate
  { num_staff_cc_range := staffInCCRange.length
    total_cc_days := totalCCDays
    replacement_cost_cc := replacementCostCC
    num_high_claimant := highClaimants.length
    excess_days := excessDays
    high_claimant_cost := replacement_cost * excessDays
    ark_commission := arkCommission
    abcover_commission := abcoverCommission
    total_premium := replacementCostCC + arkCommission + abcoverCommission
    deductible := deductible
    cc_days := cc_days
    cc_maximum := ccMaximum
    replacement_cost := replacement_cost
    total_teachers := totals.length
    below_deductible_count := (totals.filter fun d => decide (d ≤ deductible)).length }

end RatingEngineAgentLLM

/-! ## Helper lemmas -/

/-- Folding the coverage-range accumulation over a list of totals that all
exceed the deductible adds one `min` term per element. -/
lemma foldl_ccdays_eq_sum (ded m : ℚ) :
    ∀ (l : List ℚ) (a : ℚ), (∀ d ∈ l, ded < d) →
      l.foldl (fun acc d => if ded < d then acc + min (d - ded) (m - ded) else acc) a
        = a + (l.map fun d => min (d - ded) (m - ded)).sum := by
  intro l
  induction l with
  | nil => intro a _; simp
  | cons hd tl ih =>
    intro a h
    have hhd : ded < hd := h hd (by simp)
    simp only [List.foldl_cons, List.map_cons, List.sum_cons, if_pos hhd]
    rw [ih (a + min (hd - ded) (m - ded)) fun d hd2 => h d (by simp [hd2])]
    ring

/-- Every element of `ccRangeFilter` exceeds the deductible. -/
lemma mem_ccRangeFilter_gt (ded m : ℚ) (l : List ℚ) :
    ∀ d ∈ ccRangeFilter ded m l, ded < d := by
  intro d hd
  have := List.of_mem_filter hd
  simp only [Bool.and_eq_true, decide_eq_true_eq] at this
  exact this.1

/-- Three-way tier partition of a totals list: the below-deductible,
coverage-range and high-claimant filters cover every total exactly once when
the coverage width is non-negative. -/
lemma tier_partition (ded cc : ℚ) (h : 0 ≤ cc) (l : List ℚ) :
    (l.filter fun d => decide (d ≤ ded)).length
      + (ccRangeFilter ded (ded + cc) l).length
      + (highClaimantFilter (ded + cc) l).length = l.length := by
  induction l with
  | nil => simp [ccRangeFilter, highClaimantFilter]
  | cons hd tl ih =>
    have hdm : ded ≤ ded + cc := by linarith
    simp only [ccRangeFilter, highClaimantFilter, List.filter_cons] at ih ⊢
    rcases le_or_lt hd ded with h1 | h1
    · have hn1 : ¬ ded < hd := not_lt.mpr h1
      have hn2 : ¬ ded + cc < hd := not_lt.mpr (le_trans h1 hdm)
      simp [h1, hn1, hn2]
      omega
    · rcases le_or_lt hd (ded + cc) with h2 | h2
      · have hn2 : ¬ ded + cc < hd := not_lt.mpr h2
        simp [h1, h2, not_le.mpr h1, hn2]
        omega
      · simp [h1, h2, not_le.mpr h1, not_le.mpr h2]
        omega

/-- Keys after adding one entry: unchanged when the key was present,
appended otherwise. -/
lemma keys_addEntry (al : List (String × ℚ)) (e : String × ℚ) :
    (addEntry al e).map Prod.fst =
      if e.1 ∈ al.map Prod.fst then al.map Prod.fst else al.map Prod.fst ++ [e.1] := by
  induction al with
  | nil => simp [addEntry]
  | cons hd tl ih =>
    by_cases hk : e.1 = hd.1
    · simp [addEntry, hk]
    · by_cases hm : e.1 ∈ tl.map Prod.fst <;> simp [addEntry, hk, hm, ih]

/-- The key set after adding one entry is the old key set plus the new key. -/
lemma keys_addEntry_toFinset (al : List (String × ℚ)) (e : String × ℚ) :
    ((addEntry al e).map Prod.fst).toFinset = insert e.1 (al.map Prod.fst).toFinset := by
  ext x
  by_cases hm : e.1 ∈ al.map Prod.fst <;> simp [keys_addEntry, hm]
  tauto

/-- Folding `addEntry` keeps the keys distinct and accumulates exactly the
keys seen. -/
lemma foldl_addEntry_keys :
    ∀ (l al : List (String × ℚ)), (al.map Prod.fst).Nodup →
      ((l.foldl addEntry al).map Prod.fst).Nodup ∧
        ((l.foldl addEntry al).map Prod.fst).toFinset =
          (al.map Prod.fst).toFinset ∪ (l.map Prod.fst).toFinset := by
  intro l
  induction l with
  | nil => intro al h; simp [h]
  | cons e tl ih =>
    intro al h
    have hnd : ((addEntry al e).map Prod.fst).Nodup := by
      rw [keys_addEntry]
      by_cases hm : e.1 ∈ al.map Prod.fst
      · simpa [hm] using h
      · simp [hm, List.nodup_append, h]
    obtain ⟨h1, h2⟩ := ih (addEntry al e) hnd
    refine ⟨h1, ?_⟩
    rw [List.foldl_cons, h2, keys_addEntry_toFinset]
    ext x
    simp

/-- `groupby(key).sum()` has one row per distinct key. -/
lemma groupByKeySum_length (l : List (String × ℚ)) :
    (groupByKeySum l).length = (l.map Prod.fst).toFinset.card := by
  obtain ⟨hnd, hfs⟩ := foldl_addEntry_keys l [] (by simp)
  show (l.foldl addEntry []).length = _
  rw [← List.length_map (l.foldl addEntry []) Prod.fst, ← List.toFinset_card_of_nodup hnd, hfs]
  simp

/-! ## Claims -/

/-- The coverage-cost formula as the spec states it (§4.5/§4.6): cost per day
times the sum, over coverage-range employees, of
`min(d - deductible_days, coverage_days)` chargeable days. Stated from the
spec's words, for comparison with the engines. -/
def specCoverageCost (totals : List ℚ) (deductible cc_days cost_per_day : ℚ) : ℚ :=
  cost_per_day *
    ((totals.filter fun d => decide (deductible < d) && decide (d ≤ deductible + cc_days)).map
      fun d => min (d - deductible) cc_days).sum

/-- The hand-calculated scenario of the repository's own
`check_calculation_correct.py` / `validate_calculations.py`: four teachers
with 15, 50, 75 and 100 total days, deductible 20, CC days 60,
replacement cost 150. -/
def answerKeyTeacherDays : List (String × ℚ) :=
  [("Teacher_A", 15), ("Teacher_B", 50), ("Teacher_C", 75), ("Teacher_D", 100)]

/-- The total CC days the LLM engine computes equal the spec's
per-employee-capped chargeable-day sum. -/
lemma llm_total_cc_days_eq_spec (td : List (String × ℚ)) (ded cc cost a b : ℚ) :
    (RatingEngineAgentLLM.calculate_with_reasoning td ded cc cost a b).replacement_cost_cc
      = specCoverageCost (totalsOf td) ded cc cost := by
  unfold RatingEngineAgentLLM.calculate_with_reasoning specCoverageCost
  dsimp only
  have hmem := mem_ccRangeFilter_gt ded (ded + cc) (totalsOf td)
  rw [foldl_ccdays_eq_sum ded (ded + cc) _ 0 hmem]
  unfold ccRangeFilter
  simp [add_sub_cancel_left]

/-- C1: the coverage cost of the rating engine equals
`cost_per_day × Σ min(d − deductible_days, coverage_days)` over
coverage-range employees — total CC days count only the days above the
deductible. The LLM engine (the one the orchestrator and the repository's
answer-key checks use) satisfies this for every totals table and all
parameters; on the repository's own hand-calculated scenario it yields the
expected 85 CC days and 12750 coverage cost, while the deterministic
`RatingEngineAgent.calculate_coverage_metrics` sums the coverage-range
employees' FULL day totals, 125 days and 18750 — the code slip this claim's
status records. -/
theorem C1_coverage_cost_counts_only_days_above_deductible :
    (∀ (td : List (String × ℚ)) (ded cc cost a b : ℚ),
      (RatingEngineAgentLLM.calculate_with_reasoning td ded cc cost a b).replacement_cost_cc
        = specCoverageCost (totalsOf td) ded cc cost)
    ∧ (RatingEngineAgentLLM.calculate_with_reasoning answerKeyTeacherDays 20 60 150
        (3/20) (3/20)).total_cc_days = 85
    ∧ (RatingEngineAgentLLM.calculate_with_reasoning answerKeyTeacherDays 20 60 150
        (3/20) (3/20)).replacement_cost_cc = 12750
    ∧ (RatingEngineAgent.calculate_coverage_metrics answerKeyTeacherDays 20 60 150).total_cc_days
        = 125
    ∧ (RatingEngineAgent.calculate_coverage_metrics answerKeyTeacherDays 20 60
        150).replacement_cost_cc = 18750
    ∧ specCoverageCost (totalsOf answerKeyTeacherDays) 20 60 150 = 12750 := by
  refine ⟨llm_total_cc_days_eq_spec, ?_, ?_, ?_, ?_, ?_⟩ <;>
    norm_num +decide [RatingEngineAgentLLM.calculate_with_reasoning,
      RatingEngineAgent.calculate_coverage_metrics, specCoverageCost, answerKeyTeacherDays,
      totalsOf, groupByKeySum, addEntry, ccRangeFilter, highClaimantFilter, List.filter,
      List.foldl]

/-- C5: for every teacher-days table and non-negative coverage width, the
below-deductible, coverage-range and high-claimant populations the engine
reports partition the employees: their sum equals the number of distinct
employee identifiers in the input. -/
theorem C5_tier_populations_partition_distinct_employees
    (td : List (String × ℚ)) (ded cc cost a b : ℚ) (h : 0 ≤ cc) :
    (RatingEngineAgentLLM.calculate_with_reasoning td ded cc cost a b).below_deductible_count
      + (RatingEngineAgentLLM.calculate_with_reasoning td ded cc cost a b).num_staff_cc_range
      + (RatingEngineAgentLLM.calculate_with_reasoning td ded cc cost a b).num_high_claimant
      = (td.map Prod.fst).toFinset.card := by
  unfold RatingEngineAgentLLM.calculate_with_reasoning
  dsimp only
  rw [tier_partition ded cc h (totalsOf td)]
  rw [← groupByKeySum_length]
  simp [totalsOf]

/-- C5 witness: a four-row table with a repeated employee (A appears twice,
totalling 25 days) has 3 distinct employees, and the engine's three tier
populations sum to 3. -/
theorem C5_tier_populations_partition_distinct_employees_witness :
    (0 : ℚ) ≤ 60
    ∧ (RatingEngineAgentLLM.calculate_with_reasoning
          [("A", 15), ("B", 50), ("A", 10), ("D", 100)] 20 60 150 (3/20)
          (3/20)).below_deductible_count
        + (RatingEngineAgentLLM.calculate_with_reasoning
          [("A", 15), ("B", 50), ("A", 10), ("D", 100)] 20 60 150 (3/20)
          (3/20)).num_staff_cc_range
        + (RatingEngineAgentLLM.calculate_with_reasoning
          [("A", 15), ("B", 50), ("A", 10), ("D", 100)] 20 60 150 (3/20)
          (3/20)).num_high_claimant
      = ([("A", (15:ℚ)), ("B", 50), ("A", 10), ("D", 100)].map Prod.fst).toFinset.card :=
  ⟨by decide,
    C5_tier_populations_partition_distinct_employees
      [("A", 15), ("B", 50), ("A", 10), ("D", 100)] 20 60 150 (3/20) (3/20) (by decide)⟩

/-- C6: boundary tie-breaks of the tier classifier, for a positive coverage
width. An employee whose total equals the deductible lands in the
below-deductible population (not coverage-range, not high-claimant) and
contributes 0 CC days; an employee whose total equals the coverage ceiling
`deductible + cc_days` lands in the coverage-range population (not
high-claimant) and contributes exactly `cc_days` CC days. -/
theorem C6_boundary_tie_breaks (ded cc cost a b : ℚ) (h : 0 < cc) :
    ((RatingEngineAgentLLM.calculate_with_reasoning [("E", ded)] ded cc cost a
        b).below_deductible_count = 1
      ∧ (RatingEngineAgentLLM.calculate_with_reasoning [("E", ded)] ded cc cost a
        b).num_staff_cc_range = 0
      ∧ (RatingEngineAgentLLM.calculate_with_reasoning [("E", ded)] ded cc cost a
        b).num_high_claimant = 0
      ∧ (RatingEngineAgentLLM.calculate_with_reasoning [("E", ded)] ded cc cost a
        b).total_cc_days = 0)
    ∧ ((RatingEngineAgentLLM.calculate_with_reasoning [("E", ded + cc)] ded cc cost a
        b).num_staff_cc_range = 1
      ∧ (RatingEngineAgentLLM.calculate_with_reasoning [("E", ded + cc)] ded cc cost a
        b).below_deductible_count = 0
      ∧ (RatingEngineAgentLLM.calculate_with_reasoning [("E", ded + cc)] ded cc cost a
        b).num_high_claimant = 0
      ∧ (RatingEngineAgentLLM.calculate_with_reasoning [("E", ded + cc)] ded cc cost a
        b).total_cc_days = cc) := by
  have h1 : ¬ ded + cc ≤ ded := by linarith
  have h2 : ded < ded + cc := by linarith
  have h3 : ¬ ded + cc < ded := by linarith
  unfold RatingEngineAgentLLM.calculate_with_reasoning
  simp [totalsOf, groupByKeySum, addEntry, ccRangeFilter, highClaimantFilter, h1, h2, h3,
    add_sub_cancel_left]

/-- C6 witness: deductible 20, coverage width 60, ceiling 80 — an employee
with exactly 20 days is below-deductible with 0 CC days; one with exactly 80
days is coverage-range with 60 CC days. -/
theorem C6_boundary_tie_breaks_witness :
    ((RatingEngineAgentLLM.calculate_with_reasoning [("E", 20)] 20 60 150 (3/20)
        (3/20)).below_deductible_count = 1
      ∧ (RatingEngineAgentLLM.calculate_with_reasoning [("E", 20)] 20 60 150 (3/20)
        (3/20)).num_staff_cc_range = 0
      ∧ (RatingEngineAgentLLM.calculate_with_reasoning [("E", 20)] 20 60 150 (3/20)
        (3/20)).num_high_claimant = 0
      ∧ (RatingEngineAgentLLM.calculate_with_reasoning [("E", 20)] 20 60 150 (3/20)
        (3/20)).total_cc_days = 0)
    ∧ ((RatingEngineAgentLLM.calculate_with_reasoning [("E", 20 + 60)] 20 60 150 (3/20)
        (3/20)).num_staff_cc_range = 1
      ∧ (RatingEngineAgentLLM.calculate_with_reasoning [("E", 20 + 60)] 20 60 150 (3/20)
        (3/20)).below_deductible_count = 0
      ∧ (RatingEngineAgentLLM.calculate_with_reasoning [("E", 20 + 60)] 20 60 150 (3/20)
        (3/20)).num_high_claimant = 0
      ∧ (RatingEngineAgentLLM.calculate_with_reasoning [("E", 20 + 60)] 20 60 150 (3/20)
        (3/20)).total_cc_days = 60) :=
  C6_boundary_tie_breaks 20 60 150 (3/20) (3/20) (by decide)

/-- C9: the premium is the coverage cost plus the two commissions computed
on it — `commission_a = c·a`, `commission_b = c·b`,
`total = c + c·a + c·b` — in both the deterministic `calculate_premium` and
the LLM engine; the high-claimant (excess) cost is computed and reported
(`high_claimant_cost = cost_per_day · excess_days`) but the premium total
equals `replacement_cost_cc · (1 + a + b)`, with no excess term. -/
theorem C9_premium_formula_excess_not_added :
    (∀ c a b : ℚ,
      (RatingEngineAgent.calculate_premium c a b).ark_commission = c * a
      ∧ (RatingEngineAgent.calculate_premium c a b).abcover_commission = c * b
      ∧ (RatingEngineAgent.calculate_premium c a b).total_premium = c + c * a + c * b)
    ∧ (∀ (td : List (String × ℚ)) (ded cc cost a b : ℚ),
      (RatingEngineAgentLLM.calculate_with_reasoning td ded cc cost a b).ark_commission
        = (RatingEngineAgentLLM.calculate_with_reasoning td ded cc cost a b).replacement_cost_cc
          * a
      ∧ (RatingEngineAgentLLM.calculate_with_reasoning td ded cc cost a b).abcover_commission
        = (RatingEngineAgentLLM.calculate_with_reasoning td ded cc cost a b).replacement_cost_cc
          * b
      ∧ (RatingEngineAgentLLM.calculate_with_reasoning td ded cc cost a b).total_premium
        = (RatingEngineAgentLLM.calculate_with_reasoning td ded cc cost a b).replacement_cost_cc
          + (RatingEngineAgentLLM.calculate_with_reasoning td ded cc cost a b).ark_commission
          + (RatingEngineAgentLLM.calculate_with_reasoning td ded cc cost a b).abcover_commission
      ∧ (RatingEngineAgentLLM.calculate_with_reasoning td ded cc cost a b).high_claimant_cost
        = cost * (RatingEngineAgentLLM.calculate_with_reasoning td ded cc cost a b).excess_days
      ∧ (RatingEngineAgentLLM.calculate_with_reasoning td ded cc cost a b).total_premium
        = (RatingEngineAgentLLM.calculate_with_reasoning td ded cc cost a b).replacement_cost_cc
          * (1 + a + b)) := by
  constructor
  · intro c a b
    refine ⟨rfl, rfl, rfl⟩
  · intro td ded cc cost a b
    unfold RatingEngineAgentLLM.calculate_with_reasoning
    dsimp only
    refine ⟨rfl, rfl, rfl, rfl, by ring⟩

/-- `DataCleaningAgent.calculate_absence_days` never changes the number of
rows (it either returns the table as is or adds a column). -/
lemma calc_days_length (t : Table) :
    (DataCleaningAgent.calculate_absence_days t).rows.length = t.rows.length := by
  unfold DataCleaningAgent.calculate_absence_days
  split <;> simp

/-- C10: invariants of `DataCleaningAgent.process`: the row count never
increases across stages (original ≥ after Rule 1 ≥ after Rule 2), the
absence-day computation leaves the row count unchanged, and the returned
statistics satisfy `rows_removed = original_rows − final_rows` with
`final_rows` the length of the returned table. -/
theorem C10_cleaning_row_count_invariants (t : Table) :
    (DataCleaningAgent.process t).2.original_rows = t.rows.length
    ∧ (DataCleaningAgent.process t).2.after_rule1 ≤ (DataCleaningAgent.process t).2.original_rows
    ∧ (DataCleaningAgent.process t).2.after_rule2 ≤ (DataCleaningAgent.process t).2.after_rule1
    ∧ (DataCleaningAgent.process t).2.final_rows = (DataCleaningAgent.process t).2.after_rule2
    ∧ (DataCleaningAgent.process t).2.final_rows = (DataCleaningAgent.process t).1.rows.length
    ∧ (DataCleaningAgent.process t).2.rows_removed
        = ((DataCleaningAgent.process t).2.original_rows : ℤ)
          - ((DataCleaningAgent.process t).2.final_rows : ℤ) := by
  unfold DataCleaningAgent.process
  dsimp only
  refine ⟨rfl, ?_, ?_, calc_days_length _, rfl, rfl⟩
  · unfold DataCleaningAgent.apply_rule1
    split <;> simp [List.length_filter_le]
  · unfold DataCleaningAgent.apply_rule2
    split <;> simp [List.length_filter_le]

/-- A row with its `Absence_Days` cell erased (what the recompute guarantee
quantifies over: inputs that agree except in a pre-existing day-value
column). -/
def stripDays (r : CRow) : CRow := { r with absenceDays := none }

/-- The `Absence_Days` column of a table. -/
def daysColumn (t : Table) : List (Option ℚ) := t.rows.map CRow.absenceDays

/-- `calculate_days` never reads the `Absence_Days` cell. -/
lemma calculate_days_stripDays (hA hD : Bool) (r : CRow) :
    calculate_days hA hD (stripDays r) = calculate_days hA hD r := rfl

/-- C2 (amended): the LLM cleaning agent's `calculate_absence_days` always
recomputes the day value from `Absence Type` and `Duration` whenever the
`Absence Type` column is present: two input tables with the same layout
whose rows agree outside the `Absence_Days` column get identical
`Absence_Days` output columns. (The deterministic `DataCleaningAgent`
violates this: it returns the table unchanged when an `Absence_Days` column
already exists — see the counterexample.) -/
theorem C2_llm_recompute_ignores_prior_days_column (t1 t2 : Table)
    (hc : t1.cols = t2.cols) (hat : t1.cols.hasAbsenceType = true)
    (hr : t1.rows.map stripDays = t2.rows.map stripDays) :
    daysColumn (DataCleaningAgentLLM.calculate_absence_days t1)
      = daysColumn (DataCleaningAgentLLM.calculate_absence_days t2) := by
  unfold DataCleaningAgentLLM.calculate_absence_days daysColumn
  rw [if_neg (by simp [hat]), if_neg (by simp [← hc, hat])]
  dsimp only
  rw [List.map_map, List.map_map]
  have key : ∀ u : Table, u.cols = t1.cols →
      u.rows.map (CRow.absenceDays ∘ fun r =>
          { r with absenceDays := some (calculate_days u.cols.hasAbsenceType u.cols.hasDuration r) })
        = (u.rows.map stripDays).map fun r =>
            some (calculate_days t1.cols.hasAbsenceType t1.cols.hasDuration r) := by
    intro u hu
    rw [List.map_map]
    refine List.map_congr_left fun r _ => ?_
    simp [hu, calculate_days_stripDays, Function.comp]
  rw [key t1 rfl, key t2 hc.symm, hr]

/-- The two C2 counterexample tables: identical except for the value in a
pre-existing `Absence_Days` column (7 versus 1 on a `Full Day` row). -/
def c2Left : Table :=
  { cols := { hasAbsenceDays := true },
    rows := [{ absenceType := some "Full Day", absenceDays := some 7 }] }

/-- Same as `c2Left` with the pre-existing day value changed to 1. -/
def c2Right : Table :=
  { cols := { hasAbsenceDays := true },
    rows := [{ absenceType := some "Full Day", absenceDays := some 1 }] }

/-- C2 counterexample: the deterministic `DataCleaningAgent`'s absence-day
calculation keeps a pre-existing `Absence_Days` column untouched (`return df
 # Already calculated`), so two inputs that differ only in that column give
different `Absence_Days` outputs — the day value is read from the prior
column, not recomputed. -/
theorem C2_counterexample_deterministic_agent_trusts_prior_column :
    c2Left.cols = c2Right.cols
    ∧ c2Left.rows.map stripDays = c2Right.rows.map stripDays
    ∧ daysColumn (DataCleaningAgent.calculate_absence_days c2Left) = [some 7]
    ∧ daysColumn (DataCleaningAgent.calculate_absence_days c2Right) = [some 1]
    ∧ daysColumn (DataCleaningAgent.calculate_absence_days c2Left)
        ≠ daysColumn (DataCleaningAgent.calculate_absence_days c2Right) := by
  refine ⟨rfl, rfl, ?_, ?_, ?_⟩ <;>
    norm_num [c2Left, c2Right, daysColumn, DataCleaningAgent.calculate_absence_days]

/-- C2 witness: the LLM agent on the same two tables yields the same
recomputed `Absence_Days` column. -/
theorem C2_llm_recompute_ignores_prior_days_column_witness :
    (c2Left.cols = c2Right.cols
      ∧ c2Left.cols.hasAbsenceType = true
      ∧ c2Left.rows.map stripDays = c2Right.rows.map stripDays)
    ∧ daysColumn (DataCleaningAgentLLM.calculate_absence_days c2Left)
        = daysColumn (DataCleaningAgentLLM.calculate_absence_days c2Right) :=
  ⟨⟨rfl, rfl, rfl⟩, C2_llm_recompute_ignores_prior_days_column c2Left c2Right rfl rfl rfl⟩

/-- C3 counterexample: for `Custom Duration` with a numeric but negative
`Duration` of −3 hours, `calculate_days` returns −3 / 7.5 = −2/5, not the
0.0 the claim requires for negative durations (the code has no
non-negativity test; `validate_data_format` flags negative durations but
keeps them). -/
theorem C3_counterexample_negative_duration :
    calculate_days true true { absenceType := some "Custom Duration", duration := some (-3) }
      = -(2 / 5)
    ∧ (-(2 / 5) : ℚ) ≠ 0 := by
  constructor
  · norm_num +decide [calculate_days, pyStrip, stripChars, isPyWs]
  · norm_num

/-- C3 (amended): the per-row day-duration function returns 1.0 for
`Full Day`, 0.5 for `AM Half Day` and `PM Half Day`, and, for
`Custom Duration`, `duration_hours / 7.5` whenever `duration_hours` is
numeric — including negative values, which produce negative day counts —
and 0.0 only when the `Duration` cell is missing/non-numeric or the column
is absent; any other or missing absence type (or an absent `Absence Type`
column) gives 0.0. Comparisons are made on the whitespace-stripped absence
type. -/
theorem C3_day_duration_cases :
    (∀ (hD : Bool) (r : CRow) (s : String), r.absenceType = some s →
      ((pyStrip s = "Full Day" → calculate_days true hD r = 1)
      ∧ ((pyStrip s = "AM Half Day"
          ∨ pyStrip s = "PM Half Day") →
          calculate_days true hD r = 1 / 2)
      ∧ (pyStrip s = "Custom Duration" →
          ∀ q : ℚ, r.duration = some q → hD = true → calculate_days true hD r = q / (15 / 2))
      ∧ (pyStrip s = "Custom Duration" →
          (hD = false ∨ r.duration = none) → calculate_days true hD r = 0)
      ∧ (pyStrip s ∉
            (["Full Day", "AM Half Day", "PM Half Day", "Custom Duration"] : List String) →
          calculate_days true hD r = 0)))
    ∧ (∀ (hA hD : Bool) (r : CRow), hA = false ∨ r.absenceType = none →
        calculate_days hA hD r = 0) := by
  constructor
  · intro hD r s hr
    refine ⟨?_, ?_, ?_, ?_, ?_⟩
    · intro h1
      simp +decide [calculate_days, hr, h1]
    · rintro (h1 | h1) <;> simp +decide [calculate_days, hr, h1]
    · intro h1 q hq hDt
      simp +decide [calculate_days, hr, h1, hq, hDt]
    · rintro h1 (h2 | h2) <;> simp +decide [calculate_days, hr, h1, h2]
    · intro h1
      simp only [List.mem_cons, List.mem_singleton, not_or] at h1
      obtain ⟨n1, n2, n3, n4⟩ := h1
      simp [calculate_days, hr, n1, n2, n3, n4]
  · rintro hA hD r (h | h) <;> simp [calculate_days, h]

/-- C3 witness: the amended `Custom Duration` branch at a concrete row with
3 numeric hours — 3 / 7.5 days. -/
theorem C3_day_duration_cases_witness :
    (({ absenceType := some "Custom Duration", duration := some 3 } : CRow).absenceType
        = some "Custom Duration"
      ∧ pyStrip "Custom Duration" = "Custom Duration")
    ∧ calculate_days true true { absenceType := some "Custom Duration", duration := some 3 }
        = 3 / (15 / 2) :=
  ⟨⟨rfl, by decide⟩,
    (C3_day_duration_cases.1 true
      { absenceType := some "Custom Duration", duration := some 3 } "Custom Duration"
      rfl).2.2.1 (by decide) 3 rfl rfl⟩

/-- The C4 input: a one-row table whose `Date` column is entirely absent
(the other required columns are present and populated). -/
def c4Table : Table :=
  { cols := { hasDate := false },
    rows := [{ schoolYear := some "2021-2022", employeeId := some "E1",
               absenceType := some "Full Day", filled := some "Filled",
               needsSub := some "YES", employeeType := some "Teacher" }] }

/-- C4 counterexample: with the required `Date` column entirely absent,
`validate_data_format` does not fail — it records the missing column in the
report's `format_issues` and returns normally, and the pipeline proceeds to
produce a cleaned one-row table with `Absence_Days` computed, contradicting
the claim that a fatal `SchemaError` stops the run. -/
theorem C4_counterexample_pipeline_proceeds_without_required_column :
    (DataCleaningAgentLLM.validate_data_format c4Table).2.format_issues
      = [DataCleaningAgentLLM.FormatIssue.missingColumns ["Date"]]
    ∧ (DataCleaningAgentLLM.process c4Table true false none teacher_types true).1.rows.length = 1
    ∧ (DataCleaningAgentLLM.process c4Table true false none teacher_types true).2.final_rows = 1
    ∧ daysColumn (DataCleaningAgentLLM.process c4Table true false none teacher_types true).1
        = [some 1] := by
  refine ⟨?_, ?_, ?_, ?_⟩ <;>
    norm_num +decide [DataCleaningAgentLLM.process, DataCleaningAgentLLM.validate_data_format,
      DataCleaningAgentLLM.apply_rule1, DataCleaningAgentLLM.apply_rule2,
      DataCleaningAgentLLM.apply_rule3, DataCleaningAgentLLM.calculate_absence_days,
      DataCleaningAgentLLM.userTypesTruthy, c4Table, DataCleaningAgentLLM.required_columns, DataCleaningAgentLLM.hasRequiredCol, DataCleaningAgentLLM.rowAllNa,
      DataCleaningAgentLLM.dateIsValid, DataCleaningAgentLLM.syFormatOk, rule1Keep, rule2Keep, teacher_types, daysColumn, calculate_days,
      pyStrip, stripChars, isPyWs]

/-- C4 (amended): when a required column (here `Date`) is entirely absent,
validation does not raise — it appends a missing-required-columns entry
naming the column to `format_issues` — and `process` still runs the cleaning
rules to completion, returning a cleaned table whose length matches the
reported `final_rows`. -/
theorem C4_missing_column_recorded_not_fatal (t : Table) (hd : t.cols.hasDate = false)
    (ru uf : Bool) (ut : Option (List String)) (lt : List String) (vd : Bool) :
    (∃ miss, DataCleaningAgentLLM.FormatIssue.missingColumns miss
        ∈ (DataCleaningAgentLLM.validate_data_format t).2.format_issues ∧ "Date" ∈ miss)
    ∧ (DataCleaningAgentLLM.process t ru uf ut lt vd).2.final_rows
        = (DataCleaningAgentLLM.process t ru uf ut lt vd).1.rows.length := by
  constructor
  · refine ⟨DataCleaningAgentLLM.required_columns.filter (fun c => !(DataCleaningAgentLLM.hasRequiredCol t.cols c)), ?_, ?_⟩
    · have hmem : "Date" ∈ DataCleaningAgentLLM.required_columns.filter fun c => !(DataCleaningAgentLLM.hasRequiredCol t.cols c) := by
        simp [DataCleaningAgentLLM.required_columns, DataCleaningAgentLLM.hasRequiredCol, hd]
      have hne : ((DataCleaningAgentLLM.required_columns.filter fun c => !(DataCleaningAgentLLM.hasRequiredCol t.cols c)).isEmpty = false) := by
        rcases hl : DataCleaningAgentLLM.required_columns.filter fun c => !(DataCleaningAgentLLM.hasRequiredCol t.cols c) with _ | _
        · rw [hl] at hmem
          cases hmem
        · simp [List.isEmpty]
      unfold DataCleaningAgentLLM.validate_data_format
      dsimp only
      simp [hne]
    · simp [DataCleaningAgentLLM.required_columns, DataCleaningAgentLLM.hasRequiredCol, hd]
  · unfold DataCleaningAgentLLM.process
    dsimp only

/-- C4 witness: the amended behaviour at the concrete `Date`-less table. -/
theorem C4_missing_column_recorded_not_fatal_witness :
    c4Table.cols.hasDate = false
    ∧ ((∃ miss, DataCleaningAgentLLM.FormatIssue.missingColumns miss
          ∈ (DataCleaningAgentLLM.validate_data_format c4Table).2.format_issues ∧ "Date" ∈ miss)
      ∧ (DataCleaningAgentLLM.process c4Table true false none teacher_types true).2.final_rows
          = (DataCleaningAgentLLM.process c4Table true false none teacher_types
              true).1.rows.length) :=
  ⟨rfl, C4_missing_column_recorded_not_fatal c4Table rfl true false none teacher_types true⟩

/-- Any school-year window `get_school_year_range` produces runs from a
July 1 to a June 30. -/
lemma get_school_year_range_shape (s : String) (sd ed : PDate)
    (h : get_school_year_range s = some (sd, ed)) :
    sd.month = 7 ∧ sd.day = 1 ∧ ed.month = 6 ∧ ed.day = 30 := by
  unfold get_school_year_range at h
  dsimp only at h
  repeat' split at h
  all_goals try exact Option.noConfusion h
  injection h with h
  injection h with hl hr
  subst hl
  subst hr
  simp

/-- A row of the C7 scenario: period `2021-2022` with the given date. -/
def c7Row (d : PDate) : CRow :=
  { schoolYear := some "2021-2022", date := DateVal.valid d }

/-- The four boundary rows of the C7 scenario in one table. -/
def c7Table : Table :=
  { cols := {},
    rows := [c7Row ⟨2021, 7, 1⟩, c7Row ⟨2021, 6, 30⟩, c7Row ⟨2022, 6, 30⟩, c7Row ⟨2022, 7, 1⟩] }

/-- C7: the period-consistency rule keeps a row with a parseable period and
a valid date exactly when the date lies in the closed window returned by
`get_school_year_range` — which always runs July 1 to June 30 — and on
period `2021-2022` it keeps 2021-07-01 and 2022-06-30 and drops 2021-06-30
and 2022-07-01. -/
theorem C7_period_window_membership :
    (∀ (sy : String) (r : CRow) (d sd ed : PDate),
      r.schoolYear = some sy → r.date = DateVal.valid d →
      get_school_year_range sy = some (sd, ed) →
      (DataCleaningAgentLLM.rule3Keep r = true
          ↔ (PDate.le sd d = true ∧ PDate.le d ed = true))
        ∧ sd.month = 7 ∧ sd.day = 1 ∧ ed.month = 6 ∧ ed.day = 30)
    ∧ DataCleaningAgentLLM.rule3Keep (c7Row ⟨2021, 7, 1⟩) = true
    ∧ DataCleaningAgentLLM.rule3Keep (c7Row ⟨2021, 6, 30⟩) = false
    ∧ DataCleaningAgentLLM.rule3Keep (c7Row ⟨2022, 6, 30⟩) = true
    ∧ DataCleaningAgentLLM.rule3Keep (c7Row ⟨2022, 7, 1⟩) = false
    ∧ (DataCleaningAgentLLM.apply_rule3 c7Table true).rows
        = [c7Row ⟨2021, 7, 1⟩, c7Row ⟨2022, 6, 30⟩] := by
  refine ⟨?_, by decide, by decide, by decide, by decide, by decide⟩
  intro sy r d sd ed hsy hdate hrange
  refine ⟨?_, get_school_year_range_shape sy sd ed hrange⟩
  unfold DataCleaningAgentLLM.rule3Keep
  rw [hsy, hdate]
  dsimp only
  rw [hrange]
  simp

/-- C7 witness: the general window rule applied to the kept boundary row
July 1, 2021 of period `2021-2022`. -/
theorem C7_period_window_membership_witness :
    ((c7Row ⟨2021, 7, 1⟩).schoolYear = some "2021-2022"
      ∧ (c7Row ⟨2021, 7, 1⟩).date = DateVal.valid ⟨2021, 7, 1⟩
      ∧ get_school_year_range "2021-2022" = some (⟨2021, 7, 1⟩, ⟨2022, 6, 30⟩))
    ∧ ((DataCleaningAgentLLM.rule3Keep (c7Row ⟨2021, 7, 1⟩) = true
          ↔ (PDate.le ⟨2021, 7, 1⟩ ⟨2021, 7, 1⟩ = true
            ∧ PDate.le ⟨2021, 7, 1⟩ ⟨2022, 6, 30⟩ = true))
        ∧ (⟨2021, 7, 1⟩ : PDate).month = 7 ∧ (⟨2021, 7, 1⟩ : PDate).day = 1
        ∧ (⟨2022, 6, 30⟩ : PDate).month = 6 ∧ (⟨2022, 6, 30⟩ : PDate).day = 30) :=
  ⟨⟨rfl, rfl, by decide⟩,
    C7_period_window_membership.1 "2021-2022" (c7Row ⟨2021, 7, 1⟩) ⟨2021, 7, 1⟩
      ⟨2021, 7, 1⟩ ⟨2022, 6, 30⟩ rfl rfl (by decide)⟩

/-- A row whose period fails to parse is always kept by the
period-consistency rule, whatever its date. -/
lemma rule3Keep_of_unparseable (r : CRow)
    (hp : ∀ sy, r.schoolYear = some sy → get_school_year_range sy = none) :
    DataCleaningAgentLLM.rule3Keep r = true := by
  unfold DataCleaningAgentLLM.rule3Keep
  rcases hsy : r.schoolYear with _ | sy
  · rfl
  · rcases r.date with _ | _ | d <;> simp [hp sy hsy]

/-- C8 (amended): rows whose `period_id` fails the code's parse — split on a
hyphen into exactly two Python-`int`-parseable parts that denote
pandas-representable July-1/June-30 endpoints — pass through the
period-consistency rule unfiltered regardless of their date. Such a parse is
not the same as "two 4-digit years": see the counterexample, where a
leading-zero five-digit year parses and is dropped. -/
theorem C8_unparseable_period_passes_through (t : Table) (shouldApply : Bool) (r : CRow)
    (hr : r ∈ t.rows)
    (hp : ∀ sy, r.schoolYear = some sy → get_school_year_range sy = none) :
    r ∈ (DataCleaningAgentLLM.apply_rule3 t shouldApply).rows := by
  unfold DataCleaningAgentLLM.apply_rule3
  split
  · exact hr
  · split
    · exact hr
    · exact List.mem_filter.mpr ⟨hr, rule3Keep_of_unparseable r hp⟩

/-- The "four digits, hyphen, four digits" period shape, as the spec words
it (for the refinement comparison in C8). -/
def specTwoFourDigitYears (s : String) : Bool :=
  match s.toList with
  | [a, b, c, d, '-', e, f, g, h] =>
    a.isDigit && b.isDigit && c.isDigit && d.isDigit &&
      e.isDigit && f.isDigit && g.isDigit && h.isDigit
  | _ => false

/-- The C8 counterexample row: period `02021-2022` (five digits before the
hyphen) with a date outside the parsed window. -/
def c8Row : CRow :=
  { schoolYear := some "02021-2022", date := DateVal.valid ⟨2023, 1, 1⟩ }

/-- The C8 counterexample table. -/
def c8Table : Table := { cols := {}, rows := [c8Row] }

/-- C8 counterexample: `02021-2022` is not of the form "two 4-digit years",
yet Python `int` parses `02021` (leading zeros allowed), so the
period-consistency rule computes the window July 2021 – June 2022 and DROPS
the row dated 2023-01-01 — a row the claim says must pass through
unfiltered. -/
theorem C8_counterexample_five_digit_year_dropped :
    specTwoFourDigitYears "02021-2022" = false
    ∧ c8Row ∈ c8Table.rows
    ∧ get_school_year_range "02021-2022" = some (⟨2021, 7, 1⟩, ⟨2022, 6, 30⟩)
    ∧ (DataCleaningAgentLLM.apply_rule3 c8Table true).rows = [] := by
  refine ⟨by decide, by decide, by decide, by decide⟩

/-- C8 witness: a row with the unparseable period `20-21` (rejected because
pandas cannot represent year 20) survives the rule with any date. -/
theorem C8_unparseable_period_passes_through_witness :
    (({ schoolYear := some "20-21", date := DateVal.valid ⟨2023, 1, 1⟩ } : CRow)
        ∈ (Table.mk {} [{ schoolYear := some "20-21", date := DateVal.valid ⟨2023, 1, 1⟩ }]).rows
      ∧ get_school_year_range "20-21" = none)
    ∧ ({ schoolYear := some "20-21", date := DateVal.valid ⟨2023, 1, 1⟩ } : CRow)
        ∈ (DataCleaningAgentLLM.apply_rule3
            (Table.mk {} [{ schoolYear := some "20-21", date := DateVal.valid ⟨2023, 1, 1⟩ }])
            true).rows :=
  ⟨⟨by decide, by decide⟩,
    C8_unparseable_period_passes_through _ true _ (by decide)
      (fun sy h => by
        injection h with h2
        rw [← h2]
        decide)⟩

end ABCover
